import Mathlib

/-!
Shallow embedding of `src/data.py` (fmdview): a pandas-based maintenance
work-order pipeline.  Datetimes are modelled as records carrying an epoch
(seconds) together with their calendar year and month; timedeltas are integer
seconds; pandas float arithmetic on integer data is modelled exactly with `Rat`.
Column assignments (`dframe[c] = ...`) mutate the caller's object in Python, so
each dataframe-taking operation is embedded with both its returned value and the
caller-visible state of the argument after the call.
-/

/-- A pandas `Timestamp`: a time point (epoch seconds) with its calendar year
and month fields, which is all the source reads from a timestamp. -/
structure Datetime where
  epoch : Int
  year : Int
  month : Int
deriving DecidableEq

/-- `get_fiscalyear` (data.py lines 102-105): list comprehension
`[date.year + 1 if date.month >= fiscalyear_start else date.year for date in column]`.
The source gives `fiscalyear_start` the default value 7; callers here pass it
explicitly. -/
def get_fiscalyear (column : List Datetime) (fiscalyear_start : Int) : List Int :=
  column.map (fun date => if date.month ≥ fiscalyear_start then date.year + 1 else date.year)

/-- `get_fiscalyear` as applied by `clean_data` to a datetime series that may
contain `NaT` (null) entries, with the default start month 7.  For a `NaT`
element, `date.month >= 7` is false (`nan >= 7`) and `date.year` is `nan`, so
the produced entry is null. -/
def get_fiscalyear_withNaT (column : List (Option Datetime)) : List (Option Int) :=
  column.map (fun d =>
    match d with
    | some date => some (if date.month ≥ 7 then date.year + 1 else date.year)
    | none => none)

/-- A Python scalar, as stored inside lists and sets in the model. -/
inductive Scalar where
  | sfloat (q : Rat)
  | sint (n : Int)
  | sstr (s : String)
deriving DecidableEq

/-- The universe of Python values the validators are exercised on: the five
types accepted by `valid_instance` (float, int, list, set, str) together with
representative non-accepted values (dict, None). -/
inductive Value where
  | float (q : Rat)
  | int (n : Int)
  | str (s : String)
  | list (xs : List Scalar)
  | set (xs : List Scalar)
  | dict (keys vals : List Scalar)
  | pynone
deriving DecidableEq

/-- `type(value)` as printed by Python, reduced to the bare class name. -/
def typeName : Value → String
  | .float _ => "float"
  | .int _ => "int"
  | .str _ => "str"
  | .list _ => "list"
  | .set _ => "set"
  | .dict _ _ => "dict"
  | .pynone => "NoneType"

/-- `isinstance(value, int)`. -/
def Value.isInt : Value → Bool
  | .int _ => true
  | _ => false

/-- Membership of a value in the five types `valid_instance` accepts
(float, int, list, set, str). -/
def Value.isValidInstanceType : Value → Bool
  | .float _ => true
  | .int _ => true
  | .list _ => true
  | .set _ => true
  | .str _ => true
  | _ => false

/-- The two exception classes raised by the validators
(data.py lines 110-111 and 179-180): both subclass `ValueError` and are
distinct types. -/
inductive PyError where
  | valueNotTypeFloatIntListSetStr (v : Value)
  | valueNotTypeInt (v : Value)
deriving DecidableEq

/-- `valid_instance` (data.py lines 113-142): returns `True` when the value is
an instance of float, int, list, set or str, and otherwise raises
`ValueNotTypeFloatIntListSetStr(value)`.  (The `False` return promised by the
docstring is unreachable.) -/
def valid_instance (value : Value) : Except PyError Bool :=
  match value with
  | .float _ => .ok true
  | .int _ => .ok true
  | .list _ => .ok true
  | .set _ => .ok true
  | .str _ => .ok true
  | v => .error (.valueNotTypeFloatIntListSetStr v)

/-- `container_hasvalue` (data.py lines 147-175): `valid_instance(value)` may
raise; on `True` the container is converted `list` then `set` (modelled by
`eraseDups`, which preserves membership) and membership of `value` is tested.
The `else: return False` branch of the source is unreachable but kept. -/
def container_hasvalue (container : List Value) (value : Value) : Except PyError Bool := do
  let b ← valid_instance value
  if b then
    pure ((container.eraseDups).contains value)
  else
    pure false

/-- `valid_fiscalyear` (data.py lines 182-211): `isinstance(year, int)` guards
the membership check; a non-int year raises `ValueNotTypeInt(year)`. -/
def valid_fiscalyear (series : List Value) (year : Value) : Except PyError Bool :=
  if year.isInt then
    container_hasvalue series year
  else
    .error (.valueNotTypeInt year)

/-- `null_nonexistent` (data.py lines 274-294): `False` when
`series.isnull().sum() > 0`, else `True`. -/
def null_nonexistent {α : Type} (series : List (Option α)) : Bool :=
  if series.countP (fun x => x.isNone) > 0 then false else true

/-- A raw cell of one of the two date columns as fetched: a parseable date, an
unparseable value (on which `pd.to_datetime` raises), or a missing value. -/
inductive DateCell where
  | dt (d : Datetime)
  | bad (s : String)
  | null
deriving DecidableEq

/-- Whether `pd.to_datetime` raises on this cell. -/
def DateCell.isBad : DateCell → Bool
  | .bad _ => true
  | _ => false

/-- The value `pd.to_datetime` produces for this cell when it does not raise
(`null` becomes `NaT`); the `bad` case is unreachable under that guard. -/
def DateCell.toOption : DateCell → Option Datetime
  | .dt d => some d
  | _ => none

/-- A fetched work-order row, restricted to the nine `target_columns` selected
by `clean_data` (data.py lines 447-449). -/
structure RawRow where
  wo_id : String
  date_completed : DateCell
  prob_type : String
  bl_id : String
  completed_by : String
  date_requested : DateCell
  time_completed : String
  time_start : String
  time_end : String
deriving DecidableEq

/-- A row after `date_completed` was coerced to datetime but before
`date_requested` was: the state of the local frame if the second
`pd.to_datetime` call raises. -/
structure MidRow where
  wo_id : String
  date_completed : Option Datetime
  prob_type : String
  bl_id : String
  completed_by : String
  date_requested : DateCell
  time_completed : String
  time_start : String
  time_end : String
deriving DecidableEq

/-- A fully cleaned row: both date columns coerced, `date_requested` moved to
the index, and the derived `duration` and fiscal-year columns attached. -/
structure CleanedRow where
  wo_id : String
  date_completed : Option Datetime
  prob_type : String
  bl_id : String
  completed_by : String
  index : Option Datetime
  time_completed : String
  time_start : String
  time_end : String
  duration : Option Int
  fiscal_year_requested : Option Int
  fiscal_year_completed : Option Int
deriving DecidableEq

/-- The sentinel category filtered out by `clean_data` (data.py line 453). -/
def testSentinel : String := "TEST(DO NOT USE)"

/-- Row filter of data.py line 453: keep rows with
`dframe['prob_type'] != 'TEST(DO NOT USE)'`. -/
def filterTest (rows : List RawRow) : List RawRow :=
  rows.filter (fun r => !(decide (r.prob_type = testSentinel)))

/-- `dframe['date_completed'] - dframe.index` (data.py line 457): pandas
timedelta subtraction, `NaT` if either operand is `NaT`. -/
def durationOf (completed index : Option Datetime) : Option Int :=
  match completed, index with
  | some c, some q => some (c.epoch - q.epoch)
  | _, _ => none

/-- One row of the state after the second `to_datetime` succeeded but before
further steps; only `date_completed` has been replaced. -/
def midRow (r : RawRow) : MidRow :=
  { wo_id := r.wo_id, date_completed := r.date_completed.toOption,
    prob_type := r.prob_type, bl_id := r.bl_id, completed_by := r.completed_by,
    date_requested := r.date_requested, time_completed := r.time_completed,
    time_start := r.time_start, time_end := r.time_end }

/-- One fully cleaned row (data.py lines 454-459): both date columns coerced,
`set_index('date_requested')`, `duration` and the two fiscal-year columns. -/
def cleanRow (r : RawRow) : CleanedRow :=
  { wo_id := r.wo_id, date_completed := r.date_completed.toOption,
    prob_type := r.prob_type, bl_id := r.bl_id, completed_by := r.completed_by,
    index := r.date_requested.toOption, time_completed := r.time_completed,
    time_start := r.time_start, time_end := r.time_end,
    duration := durationOf r.date_completed.toOption r.date_requested.toOption,
    fiscal_year_requested := (get_fiscalyear_withNaT [r.date_requested.toOption]).headD none,
    fiscal_year_completed := (get_fiscalyear_withNaT [r.date_completed.toOption]).headD none }

/-- Index order used by `sort_index` (data.py line 460): ascending by the
`date_requested` index, with `NaT` entries placed last. -/
def leIndex (a b : CleanedRow) : Bool :=
  match a.index, b.index with
  | some x, some y => decide (x.epoch ≤ y.epoch)
  | some _, none => true
  | none, some _ => false
  | none, none => true

/-- `dframe.sort_index()` (data.py line 460). -/
def sortByIndex (l : List CleanedRow) : List CleanedRow :=
  l.insertionSort (fun a b => leIndex a b = true)

/-- The argument passed to `clean_data`: either a pandas dataframe (here,
already restricted to the nine target columns) or an arbitrary other Python
object, which the `isinstance` guard at data.py line 451 rejects. -/
inductive CleanInput where
  | frame (rows : List RawRow)
  | pyobj (v : Value)
deriving DecidableEq

/-- The value `clean_data` returns: the fully cleaned frame, one of the two
partially mutated frames left behind when a `pd.to_datetime` call raises
inside the `try` block, or the untouched non-dataframe input. -/
inductive CleanOutcome where
  | cleaned (rows : List CleanedRow)
  | stoppedAtRequested (rows : List MidRow)
  | stoppedAtCompleted (rows : List RawRow)
  | notAFrame (obj : Value)
deriving DecidableEq

/-- The observable effects of one `clean_data` call: the returned object, the
function-local `status` variable (which the source assigns and then drops), and
what was printed. -/
structure CleanReturn where
  result : CleanOutcome
  status : Option String
  printed : Option String
deriving DecidableEq

/-- The `prob_type` column of whatever object `clean_data` returned. -/
def CleanOutcome.probTypes : CleanOutcome → List String
  | .cleaned rows => rows.map (fun r => r.prob_type)
  | .stoppedAtRequested rows => rows.map (fun r => r.prob_type)
  | .stoppedAtCompleted rows => rows.map (fun r => r.prob_type)
  | .notAFrame _ => []

/-- `clean_data` (data.py lines 422-470), with its local `status` variable and
its `print` made explicit.  Line 453 rebinds the local name `dframe` to the
column-selected, sentinel-filtered copy, so every later mutation hits that
copy; each `pd.to_datetime` call computes its whole column before assignment,
so a raise leaves the frame exactly as it was before that line.  The caught
exception sets `status = 'Fail'` and the filtered frame in whatever state it
reached is returned; on the `isinstance` failure a message naming the received
type is printed and the input object is returned unchanged. -/
def cleanRun (i : CleanInput) : CleanReturn :=
  match i with
  | .pyobj v =>
      { result := .notAFrame v, status := none,
        printed := some ("Function requires pandas dataframe object but received type: "
          ++ typeName v ++ ".") }
  | .frame raw =>
      let f := filterTest raw
      if f.any (fun r => r.date_completed.isBad) then
        { result := .stoppedAtCompleted f, status := some "Fail", printed := none }
      else if f.any (fun r => r.date_requested.isBad) then
        { result := .stoppedAtRequested (f.map midRow), status := some "Fail", printed := none }
      else
        { result := .cleaned (sortByIndex (f.map cleanRow)), status := some "Pass",
          printed := none }

/-- The object `clean_data` returns to its caller (the only thing the source's
`return dframe` surfaces). -/
def clean_data (i : CleanInput) : CleanOutcome :=
  (cleanRun i).result

/-- The function-local `status` variable of `clean_data` as last assigned
(never assigned on the non-dataframe branch); the source drops it, so it is
not part of `clean_data`'s return value. -/
def clean_status (i : CleanInput) : Option String :=
  (cleanRun i).status

/-- What one `clean_data` call printed. -/
def clean_printed (i : CleanInput) : Option String :=
  (cleanRun i).printed

/-- The caller's argument object after a `clean_data` call.  The source only
reads the argument before rebinding the local name `dframe` at line 453
(pandas column selection returns a new object), so the caller's object is
never written. -/
def clean_data_caller (i : CleanInput) : CleanInput := i

/-- One row of the frame handed to `ontime` (default column names): the
problem-type category and the `duration` timedelta in seconds (`none` = null,
i.e. a still-open work order). -/
structure OTRow where
  prob_type : String
  duration : Option Int
deriving DecidableEq

/-- An `OTRow` after `ontime` has run its assignments: the three derived
columns `days_integer`, `average_duration` and `ontime` are attached. -/
structure OTRowM where
  prob_type : String
  duration : Option Int
  days_integer : Int
  average_duration : Rat
  ontime : Nat
deriving DecidableEq

/-- The caller-visible frame after an `ontime` call: unchanged, or with the
three derived columns attached in place. -/
inductive OTFrame where
  | plain (rows : List OTRow)
  | withDerived (rows : List OTRowM)
deriving DecidableEq

/-- The value `ontime` returns: the tuple of three series
`(total_volume_bytype, avg_duration_bytype, percentage_ontime)`, each indexed
by the sorted problem-type keys, or the descriptive string of the null-check
branch. -/
inductive OntimeResult where
  | series (vol : List (String × Nat)) (avg : List (String × Rat)) (pct : List (String × Rat))
  | message (s : String)
deriving DecidableEq

/-- `dframe.groupby(problemtype_column)`: the rows of the group keyed `g`. -/
def groupRows (rows : List OTRow) (g : String) : List OTRow :=
  rows.filter (fun r => decide (r.prob_type = g))

/-- `dframe[duration_column].dt.days.astype(int)` (data.py line 338): the days
component of a pandas timedelta, which is the floor of the exact number of
days (e.g. a timedelta of -12 hours has `.days == -1`).  The `none` case is
unreachable under the null check guarding this expression. -/
def daysInt (r : OTRow) : Int :=
  Int.fdiv (r.duration.getD 0) 86400

/-- `groupby(...)['ontime'].count()`: rows in the group. -/
def totalVolume (rows : List OTRow) (g : String) : Nat :=
  (groupRows rows g).length

/-- Sum of `days_integer` over one group. -/
def sumDaysBy (rows : List OTRow) (g : String) : Int :=
  ((groupRows rows g).map daysInt).sum

/-- The group mean of `days_integer`, exact: pandas computes it in float. -/
def avgDuration (rows : List OTRow) (g : String) : Rat :=
  (sumDaysBy rows g : Rat) / (totalVolume rows g : Rat)

/-- `groupby(...)['days_integer'].transform('mean')` (data.py line 339): each
row receives its own group's mean. -/
def rowAvg (rows : List OTRow) (r : OTRow) : Rat :=
  avgDuration rows r.prob_type

/-- `np.where(dframe['days_integer'] <= dframe['average_duration'], 1, 0)`
(data.py line 340). -/
def ontimeFlag (rows : List OTRow) (r : OTRow) : Nat :=
  if (daysInt r : Rat) ≤ rowAvg rows r then 1 else 0

/-- `groupby(...)['ontime'].sum()` (data.py line 343). -/
def numberOntime (rows : List OTRow) (g : String) : Nat :=
  ((groupRows rows g).map (ontimeFlag rows)).sum

/-- `groupby(...)['average_duration'].mean()` (data.py line 342): the group
mean of the already-broadcast per-row group means. -/
def avgBytype (rows : List OTRow) (g : String) : Rat :=
  ((groupRows rows g).map (rowAvg rows)).sum / (totalVolume rows g : Rat)

/-- `(number_ontime_bytype / total_volume_bytype) * 100` (data.py line 345). -/
def pctOntime (rows : List OTRow) (g : String) : Rat :=
  (numberOntime rows g : Rat) / (totalVolume rows g : Rat) * 100

/-- Insert a key into a sorted duplicate-free key list, keeping it sorted and
duplicate-free. -/
def insertKey (g : String) : List String → List String
  | [] => [g]
  | k :: ks =>
    if g = k then k :: ks
    else if g < k then g :: k :: ks
    else k :: insertKey g ks

/-- The index of every series a pandas `groupby` aggregation returns: the
distinct group keys in ascending order. -/
def sortedKeys (rows : List OTRow) : List String :=
  rows.foldr (fun r ks => insertKey r.prob_type ks) []

/-- The string returned by `ontime` when the duration column has nulls
(data.py line 352), formatted with the default column name. -/
def ontimeNullMessage : String :=
  "Check \"duration\" column, ensure there are no null values."

/-- `ontime` (data.py lines 297-352), returned value: under the null check the
tuple `(total_volume_bytype, avg_duration_bytype, percentage_ontime)` of
group-keyed series; otherwise the descriptive string.  Nothing in the `try`
block can raise once the null check has passed, so the `except` branch (which
would print and return `None`) is unreachable. -/
def ontime_result (rows : List OTRow) : OntimeResult :=
  if null_nonexistent (rows.map (fun r => r.duration)) then
    .series ((sortedKeys rows).map (fun g => (g, totalVolume rows g)))
            ((sortedKeys rows).map (fun g => (g, avgBytype rows g)))
            ((sortedKeys rows).map (fun g => (g, pctOntime rows g)))
  else
    .message ontimeNullMessage

/-- The caller's frame after an `ontime` call: the three column assignments at
data.py lines 338-340 write into the caller's object, so on the null-check
success path the caller's frame gains the three derived columns; on the
failure path the function returns before any assignment. -/
def ontime_mutated (rows : List OTRow) : OTFrame :=
  if null_nonexistent (rows.map (fun r => r.duration)) then
    .withDerived (rows.map (fun r =>
      { prob_type := r.prob_type, duration := r.duration, days_integer := daysInt r,
        average_duration := rowAvg rows r, ontime := ontimeFlag rows r }))
  else
    .plain rows

/-- One row of the geocoding reference spreadsheet after
`pd.read_excel(..., skiprows=...)` and the column renaming of data.py
line 501. -/
structure ExcelRow where
  bl_id : String
  name : String
  addr : String
  site_id : String
  latitude : Rat
  longitude : Rat
deriving DecidableEq

/-- A work-order row as consumed by `make_map_dframe`: only the `bl_id` column
is read; `wo_id` stands for the untouched remainder of the row. -/
structure GRow where
  wo_id : String
  bl_id : String
deriving DecidableEq

/-- A `GRow` with the three columns `make_map_dframe` attaches. -/
structure GRowM where
  wo_id : String
  bl_id : String
  latitude : Rat
  longitude : Rat
  bld_name : String
deriving DecidableEq

/-- The caller-visible frame after a `make_map_dframe` call. -/
inductive GFrame where
  | plain (rows : List GRow)
  | withGeo (rows : List GRowM)
deriving DecidableEq

/-- The `geo_dict` lookup built at data.py lines 502-506: each distinct
`bl_id` of the spreadsheet maps to the `latitude`, `longitude` and `name` of
its first matching row (`.values[0]`); an id with no row is absent and
`geo_dict[x]` raises `KeyError`. -/
def geoLookup (excel : List ExcelRow) (b : String) : Option ExcelRow :=
  excel.find? (fun e => decide (e.bl_id = b))

/-- `make_map_dframe` (data.py lines 473-512), the three `.apply` lookups
fused row-wise: each row's `bl_id` is looked up in `geo_dict`; the first
missing id raises `KeyError` while the lookup column is being computed, before
any column is assigned. -/
def make_map_dframe : List GRow → List ExcelRow → Except String (List GRowM)
  | [], _ => .ok []
  | r :: rs, excel =>
    match geoLookup excel r.bl_id with
    | none => .error ("KeyError: " ++ r.bl_id)
    | some e =>
      match make_map_dframe rs excel with
      | .error m => .error m
      | .ok out => .ok ({ wo_id := r.wo_id, bl_id := r.bl_id, latitude := e.latitude,
                          longitude := e.longitude, bld_name := e.name } :: out)

/-- The caller's frame after a `make_map_dframe` call: all three columns
attached when every lookup succeeds, untouched when a `KeyError` is raised
while the first lookup column is computed. -/
def map_mutated (rows : List GRow) (excel : List ExcelRow) : GFrame :=
  match make_map_dframe rows excel with
  | .ok out => .withGeo out
  | .error _ => .plain rows

/-- Per the spec's words (claim C1): a row's duration expressed in whole days
truncated toward zero.  Stated for refinement comparison with the source's
`daysInt`, which floors. -/
def specDaysTrunc (r : OTRow) : Int :=
  Int.tdiv (r.duration.getD 0) 86400

/-- Per the spec's words (claim C1): the per-category mean duration taken over
durations expressed in whole days truncated toward zero. -/
def specAvgTrunc (rows : List OTRow) (g : String) : Rat :=
  (((groupRows rows g).map specDaysTrunc).sum : Rat) / ((groupRows rows g).length : Rat)

/-- Per the spec's words (claim C1): percent on-time for a category, computed
as (rows whose whole-day truncated duration is at most the category's
truncated-day mean) / (rows in the category) x 100. -/
def specPctOntime (rows : List OTRow) (g : String) : Rat :=
  (((groupRows rows g).countP
      (fun r => decide ((specDaysTrunc r : Rat) ≤ specAvgTrunc rows g))) : Rat)
    / ((groupRows rows g).length : Rat) * 100

/-- Concrete ontime input refuting the truncation reading: one category with
durations of -12 hours and 0 seconds. -/
def c1CounterRows : List OTRow :=
  [{ prob_type := "A", duration := some (-43200) }, { prob_type := "A", duration := some 0 }]

/-- Concrete ontime input for the amended formula: two categories, closed
durations of 1 day, 3 days and 0. -/
def c1WitnessRows : List OTRow :=
  [{ prob_type := "HVAC", duration := some 86400 },
   { prob_type := "HVAC", duration := some 259200 },
   { prob_type := "BOILER", duration := some 0 }]

/-- Concrete timestamp column reproducing the spec's fiscal-year examples:
2021-08-15 and 2021-05-01. -/
def c2WitnessCol : List Datetime :=
  [{ epoch := 1629000000, year := 2021, month := 8 },
   { epoch := 1619900000, year := 2021, month := 5 }]

/-- Concrete raw frame holding one ordinary row and one test-sentinel row. -/
def c3WitnessRaw : List RawRow :=
  [{ wo_id := "w1", date_completed := .dt { epoch := 86400, year := 2021, month := 5 },
     prob_type := "HVAC", bl_id := "B1", completed_by := "joe",
     date_requested := .dt { epoch := 0, year := 2021, month := 5 },
     time_completed := "", time_start := "", time_end := "" },
   { wo_id := "w2", date_completed := .null, prob_type := "TEST(DO NOT USE)", bl_id := "B1",
     completed_by := "joe", date_requested := .dt { epoch := 0, year := 2021, month := 6 },
     time_completed := "", time_start := "", time_end := "" }]

/-- Concrete geo-join inputs: one work order in a known building. -/
def c4WitnessRows : List GRow := [{ wo_id := "wo1", bl_id := "B1" }]

/-- Concrete reference spreadsheet with a single building. -/
def c4WitnessExcel : List ExcelRow :=
  [{ bl_id := "B1", name := "Main Hall", addr := "1 Main St", site_id := "S1",
     latitude := 39, longitude := -76 }]

/-- Concrete work order referencing a building absent from `c4WitnessExcel`. -/
def c4WitnessMissing : List GRow := [{ wo_id := "wo2", bl_id := "B9" }]

/-- Concrete raw frame whose `date_completed` column contains an unparseable
cell, so the first `pd.to_datetime` of `clean_data` raises. -/
def c5WitnessRaw : List RawRow :=
  [{ wo_id := "w1", date_completed := .bad "oops", prob_type := "HVAC", bl_id := "B1",
     completed_by := "joe", date_requested := .dt { epoch := 0, year := 2021, month := 5 },
     time_completed := "", time_start := "", time_end := "" }]

/-- Concrete ontime input with a null duration (an open work order). -/
def c6WitnessRows : List OTRow :=
  [{ prob_type := "HVAC", duration := none }, { prob_type := "HVAC", duration := some 0 }]

/-- Concrete raw row that cleans successfully: requested 2021-05-01 (epoch 0),
completed one day later (epoch 86400). -/
def c7WitnessRowRaw : RawRow :=
  { wo_id := "w1", date_completed := .dt { epoch := 86400, year := 2021, month := 5 },
    prob_type := "HVAC", bl_id := "B1", completed_by := "joe",
    date_requested := .dt { epoch := 0, year := 2021, month := 5 },
    time_completed := "", time_start := "", time_end := "" }

/-- Concrete raw frame that cleans successfully. -/
def c7WitnessRaw : List RawRow := [c7WitnessRowRaw]

/-- The cleaned frame `clean_data` produces from `c7WitnessRaw`. -/
def c7WitnessCleaned : List CleanedRow :=
  sortByIndex (List.map cleanRow c7WitnessRaw)

/-- Concrete ontime input witnessing the in-place mutation of the caller's
frame. -/
def c8WitnessRows : List OTRow := [{ prob_type := "HVAC", duration := some 86400 }]

/-- Concrete geo-join inputs for the mutation-profile witness. -/
def c8WitnessGeoRows : List GRow := [{ wo_id := "wo9", bl_id := "B2" }]

/-- Concrete reference spreadsheet for the mutation-profile witness. -/
def c8WitnessExcel : List ExcelRow :=
  [{ bl_id := "B2", name := "Annex", addr := "2 Side St", site_id := "S2",
     latitude := 40, longitude := -75 }]

/-! Helper lemmas shared by the claim theorems. -/

theorem sum_map_ite_eq_countP {α : Type} (l : List α) (p : α → Prop) [DecidablePred p] :
    (l.map (fun a => if p a then (1 : Nat) else 0)).sum = l.countP (fun a => decide (p a)) := by
  induction l with
  | nil => rfl
  | cons a l ih =>
    by_cases h : p a <;> simp [List.countP_cons, h, ih] <;> omega

theorem length_filter_add_length_filter_not {α : Type} (l : List α) (p : α → Bool) :
    (l.filter p).length + (l.filter (fun a => !(p a))).length = l.length := by
  induction l with
  | nil => rfl
  | cons a l ih =>
    by_cases h : p a <;> simp [List.filter_cons, h, ← ih] <;> omega

theorem mem_insertKey {g k : String} {ks : List String} :
    g ∈ insertKey k ks ↔ g = k ∨ g ∈ ks := by
  induction ks with
  | nil => simp [insertKey]
  | cons k2 ks ih =>
    simp only [insertKey]
    by_cases h1 : k = k2
    · subst h1
      rw [if_pos rfl]
      simp only [List.mem_cons]
      tauto
    · rw [if_neg h1]
      by_cases h2 : k < k2
      · rw [if_pos h2]
        simp only [List.mem_cons]
      · rw [if_neg h2]
        simp only [List.mem_cons, ih]
        tauto

theorem mem_sortedKeys {rows : List OTRow} {g : String} :
    g ∈ sortedKeys rows ↔ ∃ r ∈ rows, r.prob_type = g := by
  induction rows with
  | nil => simp [sortedKeys]
  | cons r rows ih =>
    simp only [sortedKeys, List.foldr_cons] at ih ⊢
    rw [mem_insertKey, ih]
    constructor
    · rintro (h | ⟨r2, hr2, he⟩)
      · exact ⟨r, List.mem_cons_self r rows, h.symm⟩
      · exact ⟨r2, List.mem_cons_of_mem r hr2, he⟩
    · rintro ⟨r2, hr2, he⟩
      rcases List.mem_cons.mp hr2 with h | h
      · subst h; exact Or.inl he.symm
      · exact Or.inr ⟨r2, h, he⟩

theorem sortByIndex_perm (l : List CleanedRow) : (sortByIndex l).Perm l :=
  List.perm_insertionSort _ l

theorem mem_groupRows {rows : List OTRow} {g : String} {r : OTRow} :
    r ∈ groupRows rows g ↔ r ∈ rows ∧ r.prob_type = g := by
  simp [groupRows, List.mem_filter]

theorem groupRows_length_pos {rows : List OTRow} {g : String} (h : g ∈ sortedKeys rows) :
    0 < (groupRows rows g).length := by
  rcases mem_sortedKeys.mp h with ⟨r, hr, he⟩
  have : r ∈ groupRows rows g := mem_groupRows.mpr ⟨hr, he⟩
  exact List.length_pos.mpr (fun hn => by simp [hn] at this)

/-! Claim theorems. -/

/-- C2: for every timestamp in the input sequence and every start month
(1-12, default 7), `get_fiscalyear` returns timestamp year + 1 when the
timestamp's month is at least the start month and the timestamp year
otherwise, and the output sequence has the same length as the input. -/
theorem get_fiscalyear_rule (column : List Datetime) (fiscalyear_start : Int)
    (h1 : 1 ≤ fiscalyear_start) (h2 : fiscalyear_start ≤ 12) :
    (get_fiscalyear column fiscalyear_start).length = column.length
  ∧ ∀ i : Nat, (get_fiscalyear column fiscalyear_start)[i]?
      = (column[i]?).map (fun date =>
          if date.month ≥ fiscalyear_start then date.year + 1 else date.year) := by
  refine ⟨List.length_map _ _, fun i => ?_⟩
  simp [get_fiscalyear, List.getElem?_map]

/-- Witness for C2 at the spec's own examples: start month 7,
2021-08-15 maps to fiscal year 2022 and 2021-05-01 to 2021. -/
theorem get_fiscalyear_rule_witness :
    ((1 : Int) ≤ 7 ∧ (7 : Int) ≤ 12)
  ∧ (get_fiscalyear c2WitnessCol 7).length = c2WitnessCol.length
  ∧ (get_fiscalyear c2WitnessCol 7)[0]? = some 2022
  ∧ (get_fiscalyear c2WitnessCol 7)[1]? = some 2021 := by
  refine ⟨⟨by decide, by decide⟩,
    (get_fiscalyear_rule c2WitnessCol 7 (by decide) (by decide)).1, ?_, ?_⟩
  · exact ((get_fiscalyear_rule c2WitnessCol 7 (by decide) (by decide)).2 0).trans (by decide)
  · exact ((get_fiscalyear_rule c2WitnessCol 7 (by decide) (by decide)).2 1).trans (by decide)

/-- C10: on a non-dataframe input, `clean_data` prints a message naming the
received type and returns the input object itself unchanged (no exception is
raised: the call returns normally, and the `status` local is never assigned). -/
theorem clean_data_non_dataframe_passthrough (v : Value) :
    cleanRun (.pyobj v) =
      { result := .notAFrame v, status := none,
        printed := some ("Function requires pandas dataframe object but received type: "
          ++ typeName v ++ ".") } := rfl

/-- C9: `valid_instance` returns `True` on every float/int/list/set/str value
and raises its dedicated `ValueNotTypeFloatIntListSetStr` on every other
value; `valid_fiscalyear` returns the membership Boolean on every integer year
and raises its dedicated `ValueNotTypeInt` on every non-integer year.  The two
error types are distinct constructors of `PyError`. -/
theorem validators_raise_typed_errors :
    (∀ v : Value, v.isValidInstanceType = true → valid_instance v = .ok true)
  ∧ (∀ v : Value, v.isValidInstanceType = false →
      valid_instance v = .error (.valueNotTypeFloatIntListSetStr v))
  ∧ (∀ (series : List Value) (n : Int),
      valid_fiscalyear series (.int n) = .ok ((series.eraseDups).contains (.int n)))
  ∧ (∀ (series : List Value) (year : Value), year.isInt = false →
      valid_fiscalyear series year = .error (.valueNotTypeInt year)) := by
  refine ⟨fun v hv => ?_, fun v hv => ?_, fun series n => rfl, fun series year hy => ?_⟩
  · cases v <;> first | rfl | simp [Value.isValidInstanceType] at hv
  · cases v <;> first | rfl | simp [Value.isValidInstanceType] at hv
  · simp [valid_fiscalyear, hy]

/-- Witness for C9: a str is accepted, a dict raises the instance-type error,
an int year yields a Boolean, and a str year raises the int-type error. -/
theorem validators_raise_typed_errors_witness :
    Value.isValidInstanceType (.str "ok") = true
  ∧ valid_instance (.str "ok") = .ok true
  ∧ Value.isValidInstanceType (.dict [] []) = false
  ∧ valid_instance (.dict [] []) = .error (.valueNotTypeFloatIntListSetStr (.dict [] []))
  ∧ valid_fiscalyear [Value.int 2017] (.int 2017) = .ok true
  ∧ Value.isInt (.str "2030") = false
  ∧ valid_fiscalyear [Value.int 2017] (.str "2030")
      = .error (.valueNotTypeInt (.str "2030")) := by
  refine ⟨by decide, validators_raise_typed_errors.1 _ (by decide), by decide,
    validators_raise_typed_errors.2.1 _ (by decide), ?_, by decide,
    validators_raise_typed_errors.2.2.2 _ _ (by decide)⟩
  exact (validators_raise_typed_errors.2.2.1 [Value.int 2017] 2017).trans rfl

/-- C6: when the duration column contains at least one null, `ontime` returns
the descriptive string naming the (default) duration column instead of the
series triple; the null check is the first thing the function does. -/
theorem ontime_null_returns_message (rows : List OTRow)
    (h : 0 < (rows.map (fun r => r.duration)).countP (fun x => x.isNone)) :
    ontime_result rows = .message ontimeNullMessage
  ∧ ontimeNullMessage = "Check \"duration\" column, ensure there are no null values." := by
  have hb : null_nonexistent (rows.map (fun r => r.duration)) = false := by
    unfold null_nonexistent
    rw [if_pos h]
  exact ⟨by simp [ontime_result, hb], rfl⟩

/-- Witness for C6: a frame with one open (null-duration) work order. -/
theorem ontime_null_returns_message_witness :
    0 < (c6WitnessRows.map (fun r => r.duration)).countP (fun x => x.isNone)
  ∧ ontime_result c6WitnessRows = .message ontimeNullMessage :=
  ⟨by decide, (ontime_null_returns_message c6WitnessRows (by decide)).1⟩

/-- C5: when a coercion inside the `try` block of `clean_data` raises, the
exception is swallowed: the local `status` is set to 'Fail', nothing is
printed, no error reaches the caller, and the (possibly partially mutated)
filtered frame is returned. -/
theorem clean_data_swallows_exception (raw : List RawRow)
    (h : ((filterTest raw).any (fun r => r.date_completed.isBad)
        || (filterTest raw).any (fun r => r.date_requested.isBad)) = true) :
    clean_status (.frame raw) = some "Fail"
  ∧ clean_printed (.frame raw) = none
  ∧ (clean_data (.frame raw) = .stoppedAtCompleted (filterTest raw)
    ∨ clean_data (.frame raw) = .stoppedAtRequested ((filterTest raw).map midRow)) := by
  cases hc : (filterTest raw).any (fun r => r.date_completed.isBad) with
  | true =>
    refine ⟨?_, ?_, Or.inl ?_⟩ <;> simp [clean_status, clean_printed, clean_data, cleanRun, hc]
  | false =>
    have hr : (filterTest raw).any (fun r => r.date_requested.isBad) = true := by
      simpa [hc] using h
    refine ⟨?_, ?_, Or.inr ?_⟩ <;>
      simp [clean_status, clean_printed, clean_data, cleanRun, hc, hr]

/-- Witness for C5: a frame whose completed-date column has an unparseable
cell. -/
theorem clean_data_swallows_exception_witness :
    ((filterTest c5WitnessRaw).any (fun r => r.date_completed.isBad)
      || (filterTest c5WitnessRaw).any (fun r => r.date_requested.isBad)) = true
  ∧ clean_status (.frame c5WitnessRaw) = some "Fail"
  ∧ clean_printed (.frame c5WitnessRaw) = none
  ∧ (clean_data (.frame c5WitnessRaw) = .stoppedAtCompleted (filterTest c5WitnessRaw)
    ∨ clean_data (.frame c5WitnessRaw)
        = .stoppedAtRequested ((filterTest c5WitnessRaw).map midRow)) :=
  ⟨by decide, clean_data_swallows_exception c5WitnessRaw (by decide)⟩

/-- C3: cleaning removes exactly the rows whose `prob_type` equals the test
sentinel and no others: for every input frame, whatever object `clean_data`
returns has row count equal to the input count minus the sentinel count, and
no surviving row carries the sentinel category. -/
theorem clean_data_removes_sentinel (raw : List RawRow) :
    (clean_data (.frame raw)).probTypes.length
      = raw.length - (raw.filter (fun r => decide (r.prob_type = testSentinel))).length
  ∧ ∀ p ∈ (clean_data (.frame raw)).probTypes, p ≠ testSentinel := by
  have hflen : (filterTest raw).length
      = raw.length - (raw.filter (fun r => decide (r.prob_type = testSentinel))).length := by
    have h := length_filter_add_length_filter_not raw
      (fun r => decide (r.prob_type = testSentinel))
    unfold filterTest
    omega
  have hfmem : ∀ r ∈ filterTest raw, r.prob_type ≠ testSentinel := by
    intro r hr
    have h2 := (List.mem_filter.mp hr).2
    simpa using h2
  have hout : clean_data (.frame raw) = .stoppedAtCompleted (filterTest raw)
      ∨ clean_data (.frame raw) = .stoppedAtRequested ((filterTest raw).map midRow)
      ∨ clean_data (.frame raw) = .cleaned (sortByIndex ((filterTest raw).map cleanRow)) := by
    unfold clean_data cleanRun
    by_cases hc : (filterTest raw).any (fun r => r.date_completed.isBad) = true
    · left
      simp [hc]
    · by_cases hr : (filterTest raw).any (fun r => r.date_requested.isBad) = true
      · right; left
        simp [hc, hr]
      · right; right
        simp [hc, hr]
  rcases hout with h | h | h <;> rw [h]
  · constructor
    · simpa [CleanOutcome.probTypes] using hflen
    · intro p hp
      obtain ⟨r, hr, rfl⟩ := List.mem_map.mp (by simpa [CleanOutcome.probTypes] using hp)
      exact hfmem r hr
  · constructor
    · simpa [CleanOutcome.probTypes] using hflen
    · intro p hp
      simp only [CleanOutcome.probTypes, List.map_map, List.mem_map] at hp
      obtain ⟨r, hr, rfl⟩ := hp
      exact hfmem r hr
  · have hperm := sortByIndex_perm ((filterTest raw).map cleanRow)
    constructor
    · simp only [CleanOutcome.probTypes, List.length_map, hperm.length_eq]
      simpa using hflen
    · intro p hp
      simp only [CleanOutcome.probTypes, List.mem_map] at hp
      obtain ⟨cr, hcr, rfl⟩ := hp
      obtain ⟨r, hr, rfl⟩ := List.mem_map.mp (hperm.mem_iff.mp hcr)
      exact hfmem r hr

/-- C7: every row of the successfully cleaned frame has
`duration = date_completed - date_requested` (epoch difference in seconds)
when `date_completed` is non-null, and a null duration when `date_completed`
is null.  The frame hypothesis that every index (requested date) is non-null
is the spec's WorkOrder invariant ("requested timestamp is never null"). -/
theorem clean_data_duration_rule (raw : List RawRow) (rows : List CleanedRow)
    (hres : clean_data (.frame raw) = .cleaned rows)
    (hreq : rows.all (fun r => r.index.isSome) = true) :
    ∀ r ∈ rows,
      (r.date_completed = none → r.duration = none)
    ∧ (∀ c : Datetime, r.date_completed = some c →
        ∃ q : Datetime, r.index = some q ∧ r.duration = some (c.epoch - q.epoch)) := by
  have hshape : rows = sortByIndex ((filterTest raw).map cleanRow) := by
    unfold clean_data cleanRun at hres
    by_cases hc : (filterTest raw).any (fun r => r.date_completed.isBad) = true
    · simp [hc] at hres
    · by_cases hr : (filterTest raw).any (fun r => r.date_requested.isBad) = true
      · simp [hc, hr] at hres
      · simp [hc, hr] at hres
        exact hres.symm
  subst hshape
  intro r hr
  obtain ⟨r0, hr0, rfl⟩ := List.mem_map.mp ((sortByIndex_perm _).mem_iff.mp hr)
  constructor
  · intro hcn
    show durationOf r0.date_completed.toOption r0.date_requested.toOption = none
    rw [show r0.date_completed.toOption = none from hcn]
    cases r0.date_requested.toOption <;> rfl
  · intro c hcc
    have hsome : (cleanRow r0).index.isSome = true := by
      simpa using List.all_eq_true.mp hreq _ hr
    obtain ⟨q, hq⟩ := Option.isSome_iff_exists.mp hsome
    refine ⟨q, hq, ?_⟩
    show durationOf r0.date_completed.toOption r0.date_requested.toOption
        = some (c.epoch - q.epoch)
    rw [show r0.date_completed.toOption = some c from hcc,
        show r0.date_requested.toOption = some q from hq]
    rfl

/-- Witness for C7: a one-row frame requested at epoch 0 and completed at
epoch 86400 cleans to a row whose duration is 86400 seconds. -/
theorem clean_data_duration_rule_witness :
    clean_data (.frame c7WitnessRaw) = .cleaned c7WitnessCleaned
  ∧ c7WitnessCleaned.all (fun r => r.index.isSome) = true
  ∧ cleanRow c7WitnessRowRaw ∈ c7WitnessCleaned
  ∧ (cleanRow c7WitnessRowRaw).duration = some 86400 := by
  refine ⟨rfl, by decide, by decide, ?_⟩
  obtain ⟨q, hq, hd⟩ := (clean_data_duration_rule c7WitnessRaw c7WitnessCleaned rfl (by decide)
    (cleanRow c7WitnessRowRaw) (by decide)).2 ⟨86400, 2021, 5⟩ rfl
  have hq2 : (⟨0, 2021, 5⟩ : Datetime) = q := Option.some.inj hq
  rw [hd, ← hq2]
  rfl

/-- C4: when the geo-join succeeds, every output row's attached latitude,
longitude and building name equal the reference table's values for that row's
building id (the id column itself is carried through row by row); and whenever
some work-order row's building id is absent from the reference table, the call
produces a `KeyError` (a defined lookup failure), never a silently attached
null. -/
theorem make_map_dframe_geo (rows : List GRow) (excel : List ExcelRow) :
    (∀ out : List GRowM, make_map_dframe rows excel = .ok out →
        out.map (fun o => o.bl_id) = rows.map (fun r => r.bl_id)
      ∧ ∀ o ∈ out, ∃ e : ExcelRow, geoLookup excel o.bl_id = some e
          ∧ o.latitude = e.latitude ∧ o.longitude = e.longitude ∧ o.bld_name = e.name)
  ∧ (rows.any (fun r => (geoLookup excel r.bl_id).isNone) = true →
      ∃ msg : String, make_map_dframe rows excel = .error msg) := by
  induction rows with
  | nil =>
    constructor
    · intro out hout
      simp only [make_map_dframe] at hout
      obtain rfl : ([] : List GRowM) = out := by
        simpa using hout
      simp
    · intro h
      simp at h
  | cons r rs ih =>
    constructor
    · intro out hout
      cases hl : geoLookup excel r.bl_id with
      | none =>
        simp only [make_map_dframe, hl] at hout
        exact Except.noConfusion hout
      | some e =>
        cases hrec : make_map_dframe rs excel with
        | error m =>
          simp only [make_map_dframe, hl, hrec] at hout
          exact Except.noConfusion hout
        | ok out2 =>
          simp only [make_map_dframe, hl, hrec, Except.ok.injEq] at hout
          subst hout
          obtain ⟨hmap, hvals⟩ := ih.1 out2 hrec
          constructor
          · simp [hmap]
          · intro o ho
            rcases List.mem_cons.mp ho with rfl | ho2
            · exact ⟨e, by simpa using hl, rfl, rfl, rfl⟩
            · exact hvals o ho2
    · intro h
      cases hl : geoLookup excel r.bl_id with
      | none =>
        exact ⟨"KeyError: " ++ r.bl_id, by simp [make_map_dframe, hl]⟩
      | some e =>
        have h2 : rs.any (fun r => (geoLookup excel r.bl_id).isNone) = true := by
          simp only [List.any_cons, Bool.or_eq_true] at h
          rcases h with h | h
          · rw [hl] at h
            simp at h
          · exact h
        obtain ⟨m, hm⟩ := ih.2 h2
        refine ⟨m, ?_⟩
        simp [make_map_dframe, hl, hm]

/-- Witness for C4: a known building id resolves to its reference values, and
an unknown id yields the KeyError. -/
theorem make_map_dframe_geo_witness :
    make_map_dframe c4WitnessRows c4WitnessExcel
      = .ok [{ wo_id := "wo1", bl_id := "B1", latitude := 39, longitude := -76,
               bld_name := "Main Hall" }]
  ∧ ([{ wo_id := "wo1", bl_id := "B1", latitude := (39 : Rat), longitude := -76,
        bld_name := "Main Hall" }] : List GRowM).map (fun o => o.bl_id)
      = c4WitnessRows.map (fun r => r.bl_id)
  ∧ (∃ e : ExcelRow, geoLookup c4WitnessExcel "B1" = some e
      ∧ (39 : Rat) = e.latitude ∧ (-76 : Rat) = e.longitude ∧ "Main Hall" = e.name)
  ∧ c4WitnessMissing.any (fun r => (geoLookup c4WitnessExcel r.bl_id).isNone) = true
  ∧ ∃ msg : String, make_map_dframe c4WitnessMissing c4WitnessExcel = .error msg := by
  have hok := (make_map_dframe_geo c4WitnessRows c4WitnessExcel).1
    [{ wo_id := "wo1", bl_id := "B1", latitude := 39, longitude := -76,
       bld_name := "Main Hall" }] rfl
  refine ⟨rfl, hok.1, ?_, rfl, (make_map_dframe_geo c4WitnessMissing c4WitnessExcel).2 rfl⟩
  simpa using hok.2 _ (List.mem_singleton.mpr rfl)

/-- C1 (amended): for every frame whose duration column has no nulls, `ontime`
returns the triple of group-keyed series, and for every category the percent
on-time equals (rows whose whole-day duration is at most the category's mean
whole-day duration) / (rows in the category) x 100, where whole-day durations
are the timedelta's day component, i.e. floored toward negative infinity (not
truncated toward zero); the count equals the category's row count and the
reported mean duration equals that floored-day mean. -/
theorem ontime_metric_formula (rows : List OTRow)
    (h : null_nonexistent (rows.map (fun r => r.duration)) = true) :
    ontime_result rows
      = .series ((sortedKeys rows).map (fun g => (g, totalVolume rows g)))
                ((sortedKeys rows).map (fun g => (g, avgBytype rows g)))
                ((sortedKeys rows).map (fun g => (g, pctOntime rows g)))
  ∧ ∀ g ∈ sortedKeys rows,
      pctOntime rows g
        = (((groupRows rows g).countP
              (fun r => decide ((daysInt r : Rat) ≤ avgDuration rows g)) : Nat) : Rat)
            / ((groupRows rows g).length : Rat) * 100
    ∧ avgBytype rows g = avgDuration rows g
    ∧ totalVolume rows g = (groupRows rows g).length := by
  refine ⟨by simp [ontime_result, h], fun g hg => ⟨?_, ?_, rfl⟩⟩
  · have hmap : (groupRows rows g).map (ontimeFlag rows)
        = (groupRows rows g).map
            (fun r => if (daysInt r : Rat) ≤ avgDuration rows g then 1 else 0) := by
      apply List.map_congr_left
      intro r hr
      have hpt : r.prob_type = g := (mem_groupRows.mp hr).2
      simp [ontimeFlag, rowAvg, hpt]
    unfold pctOntime numberOntime
    rw [hmap, sum_map_ite_eq_countP]
    rfl
  · have hpos : (groupRows rows g).length ≠ 0 :=
      Nat.pos_iff_ne_zero.mp (groupRows_length_pos hg)
    have hn : ((groupRows rows g).length : Rat) ≠ 0 := Nat.cast_ne_zero.mpr hpos
    have hmap2 : (groupRows rows g).map (rowAvg rows)
        = List.replicate (groupRows rows g).length (avgDuration rows g) := by
      rw [← List.map_const']
      apply List.map_congr_left
      intro r hr
      simp [rowAvg, (mem_groupRows.mp hr).2]
    unfold avgBytype totalVolume
    rw [hmap2, List.sum_replicate, nsmul_eq_mul, mul_comm, mul_div_assoc,
      div_self hn, mul_one]

/-- Counterexample to C1 as stated: with category durations of -12 hours and
0 seconds (no nulls), the source's floor-based day conversion gives days
-1 and 0, mean -1/2 and percent on-time 50, while the spec's
truncation-toward-zero reading gives days 0 and 0, mean 0 and percent on-time
100. -/
theorem ontime_trunc_spec_counterexample :
    (c1CounterRows.map (fun r => r.duration)).all (fun d => d.isSome) = true
  ∧ pctOntime c1CounterRows "A" = 50
  ∧ specPctOntime c1CounterRows "A" = 100
  ∧ pctOntime c1CounterRows "A" ≠ specPctOntime c1CounterRows "A" := by
  have hf1 : ((-43200 : Int).fdiv 86400) = -1 := by decide
  have hf2 : ((0 : Int).fdiv 86400) = 0 := by decide
  have ht1 : Int.tdiv (-43200) 86400 = 0 := by decide
  have ht2 : Int.tdiv 0 86400 = 0 := by decide
  have h50 : pctOntime c1CounterRows "A" = 50 := by
    norm_num [pctOntime, numberOntime, totalVolume, groupRows, c1CounterRows, ontimeFlag,
      rowAvg, avgDuration, sumDaysBy, daysInt, hf1, hf2]
  have h100 : specPctOntime c1CounterRows "A" = 100 := by
    norm_num [specPctOntime, specAvgTrunc, specDaysTrunc, groupRows, c1CounterRows,
      List.countP_cons, List.countP_nil, ht1, ht2]
  exact ⟨by decide, h50, h100, by rw [h50, h100]; norm_num⟩

/-- Witness for C1 (amended) on a two-category frame with no nulls. -/
theorem ontime_metric_formula_witness :
    null_nonexistent (c1WitnessRows.map (fun r => r.duration)) = true
  ∧ "HVAC" ∈ sortedKeys c1WitnessRows
  ∧ (pctOntime c1WitnessRows "HVAC"
      = (((groupRows c1WitnessRows "HVAC").countP
            (fun r => decide ((daysInt r : Rat) ≤ avgDuration c1WitnessRows "HVAC")) : Nat) : Rat)
          / ((groupRows c1WitnessRows "HVAC").length : Rat) * 100
    ∧ avgBytype c1WitnessRows "HVAC" = avgDuration c1WitnessRows "HVAC"
    ∧ totalVolume c1WitnessRows "HVAC" = (groupRows c1WitnessRows "HVAC").length) := by
  have hg : "HVAC" ∈ sortedKeys c1WitnessRows :=
    mem_sortedKeys.mpr ⟨{ prob_type := "HVAC", duration := some 86400 },
      by simp [c1WitnessRows], rfl⟩
  exact ⟨by decide, hg, (ontime_metric_formula c1WitnessRows (by decide)).2 "HVAC" hg⟩

/-- Counterexample to C8 as stated: `ontime` is not pure over the caller's
table — on a one-row null-free frame the caller's frame comes back with the
three derived columns attached, not unchanged. -/
theorem ontime_mutates_caller :
    ontime_mutated c8WitnessRows ≠ OTFrame.plain c8WitnessRows := by
  have h : ontime_mutated c8WitnessRows
      = .withDerived (c8WitnessRows.map (fun r =>
          { prob_type := r.prob_type, duration := r.duration, days_integer := daysInt r,
            average_duration := rowAvg c8WitnessRows r, ontime := ontimeFlag c8WitnessRows r })) := by
    unfold ontime_mutated
    rw [if_pos (by decide)]
  rw [h]
  intro hcontra
  exact OTFrame.noConfusion hcontra

/-- C8 (amended): Clean leaves the caller's input object unchanged, but
Metrics and Geo-join mutate the caller's table in place — `ontime` (when its
null check passes) attaches the `days_integer`, `average_duration` and
`ontime` columns, and `make_map_dframe` (when every building id resolves)
attaches the `latitude`, `longitude` and `bld_name` columns. -/
theorem pipeline_mutation_profile :
    (∀ i : CleanInput, clean_data_caller i = i)
  ∧ (∀ rows : List OTRow, null_nonexistent (rows.map (fun r => r.duration)) = true →
      ontime_mutated rows = .withDerived (rows.map (fun r =>
        { prob_type := r.prob_type, duration := r.duration, days_integer := daysInt r,
          average_duration := rowAvg rows r, ontime := ontimeFlag rows r })))
  ∧ (∀ (rows : List GRow) (excel : List ExcelRow) (out : List GRowM),
      make_map_dframe rows excel = .ok out → map_mutated rows excel = .withGeo out) := by
  refine ⟨fun i => rfl, fun rows h => ?_, fun rows excel out hout => ?_⟩
  · unfold ontime_mutated
    rw [if_pos h]
  · unfold map_mutated
    rw [hout]

/-- Witness for C8 (amended): concrete one-row instances of each of the three
operations. -/
theorem pipeline_mutation_profile_witness :
    clean_data_caller (.pyobj (.int 3)) = .pyobj (.int 3)
  ∧ null_nonexistent (c8WitnessRows.map (fun r => r.duration)) = true
  ∧ ontime_mutated c8WitnessRows = .withDerived (c8WitnessRows.map (fun r =>
      { prob_type := r.prob_type, duration := r.duration, days_integer := daysInt r,
        average_duration := rowAvg c8WitnessRows r, ontime := ontimeFlag c8WitnessRows r }))
  ∧ make_map_dframe c8WitnessGeoRows c8WitnessExcel
      = .ok [{ wo_id := "wo9", bl_id := "B2", latitude := 40, longitude := -75,
               bld_name := "Annex" }]
  ∧ map_mutated c8WitnessGeoRows c8WitnessExcel
      = .withGeo [{ wo_id := "wo9", bl_id := "B2", latitude := 40, longitude := -75,
                    bld_name := "Annex" }] :=
  ⟨pipeline_mutation_profile.1 _, by decide,
   pipeline_mutation_profile.2.1 c8WitnessRows (by decide), rfl,
   pipeline_mutation_profile.2.2 c8WitnessGeoRows c8WitnessExcel _ rfl⟩

/-- Witness for C3: a two-row frame with one sentinel row cleans to a one-row
frame whose surviving category is not the sentinel. -/
theorem clean_data_removes_sentinel_witness :
    (clean_data (.frame c3WitnessRaw)).probTypes.length
      = c3WitnessRaw.length
        - (c3WitnessRaw.filter (fun r => decide (r.prob_type = testSentinel))).length
  ∧ (clean_data (.frame c3WitnessRaw)).probTypes.length = 1
  ∧ "HVAC" ∈ (clean_data (.frame c3WitnessRaw)).probTypes
  ∧ "HVAC" ≠ testSentinel := by
  refine ⟨(clean_data_removes_sentinel c3WitnessRaw).1, ?_, by decide,
    (clean_data_removes_sentinel c3WitnessRaw).2 "HVAC" (by decide)⟩
  exact ((clean_data_removes_sentinel c3WitnessRaw).1).trans (by decide)
